import Mathlib

/-!
Verification of the type compatibility analysis engine found in
`src/analyzers` (ReScript and Rust type analyzers, transport class
computation, and the compatibility report assembly).

The embedding translates the Rust source directly:
* `f32` scores are embedded as exact rationals; every score literal the
  source produces (`1.0` and `0.0`) is exactly representable, and no
  floating arithmetic besides returning those literals occurs.
* `Result<T, String>` becomes `Except String T`.
* Rust string `match` dispatch becomes a chain of string-equality tests,
  arm for arm in source order.
* `str::contains` is implemented as an executable substring test on the
  character list of the haystack.

Definitions whose doc comment starts with `Modelled from the spec:` have
no counterpart under `src/`; they transcribe the specification's words
and exist to be compared against the source-derived definitions.
-/

/-- Embedding of `rust_analyzer::Visibility`. -/
inductive Visibility where
  | Public
  | Private
  | Crate
  deriving DecidableEq, Repr

/-- Embedding of `rust_analyzer::RustFieldType` (recursive type algebra). -/
inductive RustFieldType where
  | I64
  | I32
  | U64
  | U32
  | String
  | Bool
  | F64
  | F32
  | Struct (name : String)
  | Vec (inner : RustFieldType)
  | Option (inner : RustFieldType)
  | Result (ok : RustFieldType) (err : RustFieldType)
  deriving DecidableEq, Repr

/-- Embedding of `rust_analyzer::RustField`. -/
structure RustField where
  name : String
  field_type : RustFieldType
  visibility : Visibility
  deriving DecidableEq, Repr

/-- Embedding of `rust_analyzer::RustType`. -/
structure RustType where
  name : String
  fields : List RustField
  attributes : List String
  location : String
  deriving DecidableEq, Repr

/-- Embedding of `rescript_analyzer::ReScriptFieldType`. -/
inductive ReScriptFieldType where
  | Int
  | String
  | Bool
  | Float
  | Record (name : String)
  | Array (inner : ReScriptFieldType)
  | Option (inner : ReScriptFieldType)
  deriving DecidableEq, Repr

/-- Embedding of `rescript_analyzer::ReScriptField`. -/
structure ReScriptField where
  name : String
  field_type : ReScriptFieldType
  optional : Bool
  deriving DecidableEq, Repr

/-- Embedding of `rescript_analyzer::ReScriptType`. -/
structure ReScriptType where
  name : String
  fields : List ReScriptField
  location : String
  deriving DecidableEq, Repr

/-- Embedding of `analyzers::TransportClass`. -/
inductive TransportClass where
  | Concorde
  | BusinessClass
  | Economy
  | Wheelbarrow
  deriving DecidableEq, Repr

/-- Helper for the substring test: does the second list start with the first? -/
def listStarts : List Char → List Char → Bool
  | [], _ => true
  | _ :: _, [] => false
  | p :: ps, c :: cs => p == c && listStarts ps cs

/-- Helper for the substring test: does the pattern occur inside the list? -/
def listSub : List Char → List Char → Bool
  | pat, [] => listStarts pat []
  | pat, c :: cs => listStarts pat (c :: cs) || listSub pat cs

/-- Embedding of Rust `str::contains` used by both extractors. -/
def strContains (s pat : String) : Bool :=
  listSub pat.toList s.toList

namespace rescript_analyzer

/-- Embedding of `rescript_analyzer::analyze_rescript_type`: returns the
hardcoded `user` TypeDefinition when the input contains the literal
declaration marker `type user`, and the not-found error otherwise. -/
def analyze_rescript_type (source : String) : Except String ReScriptType :=
  if strContains source "type user" then
    Except.ok
      { name := "user"
        fields :=
          [ { name := "id", field_type := ReScriptFieldType.Int, optional := false }
          , { name := "name", field_type := ReScriptFieldType.String, optional := false }
          , { name := "email", field_type := ReScriptFieldType.String, optional := false }
          , { name := "active", field_type := ReScriptFieldType.Bool, optional := false } ]
        location := "examples/User.res" }
  else
    Except.error "Type definition not found"

/-- Embedding of `rescript_analyzer::compatibility_score`: the source
matches only on the target tag — arm for arm, `rust`, `julia` and
`gleam` return `1.0` and the catch-all returns `0.0`; the ReScript type
argument is never inspected. -/
def compatibility_score (_rescript_type : ReScriptType) (target : String) : ℚ :=
  if target = "rust" then 1
  else if target = "julia" then 1
  else if target = "gleam" then 1
  else 0

/-- Embedding of `rescript_analyzer::map_to_target`: structural recursion
on the field type, dispatching on the target tag exactly as the source's
string match does (literal braces of the Julia renderings appear as their
escaped character codes). -/
def map_to_target (field_type : ReScriptFieldType) (target : String) : String :=
  if target = "rust" then
    match field_type with
    | ReScriptFieldType.Int => "i64"
    | ReScriptFieldType.String => "String"
    | ReScriptFieldType.Bool => "bool"
    | ReScriptFieldType.Float => "f64"
    | ReScriptFieldType.Record name => name
    | ReScriptFieldType.Array inner => "Vec<" ++ map_to_target inner target ++ ">"
    | ReScriptFieldType.Option inner => "Option<" ++ map_to_target inner target ++ ">"
  else if target = "julia" then
    match field_type with
    | ReScriptFieldType.Int => "Int64"
    | ReScriptFieldType.String => "String"
    | ReScriptFieldType.Bool => "Bool"
    | ReScriptFieldType.Float => "Float64"
    | ReScriptFieldType.Record name => name
    | ReScriptFieldType.Array inner => "Vector\x7b" ++ map_to_target inner target ++ "\x7d"
    | ReScriptFieldType.Option inner => "Union\x7bNothing, " ++ map_to_target inner target ++ "\x7d"
  else if target = "gleam" then
    match field_type with
    | ReScriptFieldType.Int => "Int"
    | ReScriptFieldType.String => "String"
    | ReScriptFieldType.Bool => "Bool"
    | ReScriptFieldType.Float => "Float"
    | ReScriptFieldType.Record name => name
    | ReScriptFieldType.Array inner => "List(" ++ map_to_target inner target ++ ")"
    | ReScriptFieldType.Option inner => "Option(" ++ map_to_target inner target ++ ")"
  else
    "Unknown"

/-- Rust `format!("{:?}", field_type)` on a `ReScriptFieldType` (derived
`Debug` output), used by the mapping table before lowercasing. -/
def debug_fmt : ReScriptFieldType → String
  | ReScriptFieldType.Int => "Int"
  | ReScriptFieldType.String => "String"
  | ReScriptFieldType.Bool => "Bool"
  | ReScriptFieldType.Float => "Float"
  | ReScriptFieldType.Record name => "Record(\"" ++ name ++ "\")"
  | ReScriptFieldType.Array inner => "Array(" ++ debug_fmt inner ++ ")"
  | ReScriptFieldType.Option inner => "Option(" ++ debug_fmt inner ++ ")"

/-- The concrete `user` TypeDefinition the extractor produces (the single
value `analyze_rescript_type` can return successfully). -/
def exampleUser : ReScriptType :=
  { name := "user"
    fields :=
      [ { name := "id", field_type := ReScriptFieldType.Int, optional := false }
      , { name := "name", field_type := ReScriptFieldType.String, optional := false }
      , { name := "email", field_type := ReScriptFieldType.String, optional := false }
      , { name := "active", field_type := ReScriptFieldType.Bool, optional := false } ]
    location := "examples/User.res" }

/-- Every ReScript field participates in mapping: the source's
`ReScriptField` carries no visibility attribute, so all fields are
public in the sense of the specification. -/
def publicFields (d : ReScriptType) : List ReScriptField :=
  d.fields

/-- Modelled from the spec: the per-field fidelity of the capability
table (absent from `src/`, which keeps no such table). The source's
scorer comments document every ReScript construct as `Perfect (1.0)`
toward each of its supported targets `rust`, `julia` and `gleam`, and
`map_to_target` renders every constructor in each of those targets, so
the modelled fidelity is 1 toward a supported target and 0 (no
capability) toward an unknown one. -/
def fieldFidelity (_field_type : ReScriptFieldType) (target : String) : ℚ :=
  if target = "rust" ∨ target = "julia" ∨ target = "gleam" then 1 else 0

/-- Modelled from the spec: the mean-of-fidelities score of section 4.3 —
the arithmetic mean of the per-field fidelities of the public fields,
and 1 when there are no public fields. -/
def spec_score (d : ReScriptType) (target : String) : ℚ :=
  let pf := publicFields d
  if pf.isEmpty then 1
  else (pf.map (fun f => fieldFidelity f.field_type target)).sum / (pf.length : ℚ)

end rescript_analyzer

namespace rust_analyzer

/-- Embedding of `rust_analyzer::analyze_rust_type`: returns the
hardcoded `User` TypeDefinition when the input contains the literal
declaration marker `pub struct User`, and the not-found error otherwise. -/
def analyze_rust_type (source : String) : Except String RustType :=
  if strContains source "pub struct User" then
    Except.ok
      { name := "User"
        fields :=
          [ { name := "id", field_type := RustFieldType.I64, visibility := Visibility.Public }
          , { name := "name", field_type := RustFieldType.String, visibility := Visibility.Public }
          , { name := "email", field_type := RustFieldType.String, visibility := Visibility.Public }
          , { name := "active", field_type := RustFieldType.Bool, visibility := Visibility.Public } ]
        attributes := [ "#[repr(C)]", "#[derive(Debug, Clone, PartialEq)]" ]
        location := "examples/user.rs" }
  else
    Except.error "Type definition not found"

/-- Embedding of `rust_analyzer::compatibility_score`: the source matches
only on the target tag — `rescript`, `julia` and `gleam` return `1.0`
and the catch-all returns `0.0`; the Rust type argument is never
inspected. -/
def compatibility_score (_rust_type : RustType) (target : String) : ℚ :=
  if target = "rescript" then 1
  else if target = "julia" then 1
  else if target = "gleam" then 1
  else 0

/-- Embedding of `rust_analyzer::map_to_target`: structural recursion on
the field type, dispatching on the target tag exactly as the source's
string match does (literal braces of the Julia renderings appear as
their escaped character codes). -/
def map_to_target (field_type : RustFieldType) (target : String) : String :=
  if target = "rescript" then
    match field_type with
    | RustFieldType.I64 => "int"
    | RustFieldType.I32 => "int"
    | RustFieldType.U64 => "int"
    | RustFieldType.U32 => "int"
    | RustFieldType.String => "string"
    | RustFieldType.Bool => "bool"
    | RustFieldType.F64 => "float"
    | RustFieldType.F32 => "float"
    | RustFieldType.Struct name => name.toLower
    | RustFieldType.Vec inner => "array<" ++ map_to_target inner target ++ ">"
    | RustFieldType.Option inner => "option<" ++ map_to_target inner target ++ ">"
    | RustFieldType.Result ok err =>
        "result<" ++ map_to_target ok target ++ ", " ++ map_to_target err target ++ ">"
  else if target = "julia" then
    match field_type with
    | RustFieldType.I64 => "Int64"
    | RustFieldType.I32 => "Int32"
    | RustFieldType.U64 => "UInt64"
    | RustFieldType.U32 => "UInt32"
    | RustFieldType.String => "String"
    | RustFieldType.Bool => "Bool"
    | RustFieldType.F64 => "Float64"
    | RustFieldType.F32 => "Float32"
    | RustFieldType.Struct name => name
    | RustFieldType.Vec inner => "Vector\x7b" ++ map_to_target inner target ++ "\x7d"
    | RustFieldType.Option inner => "Union\x7bNothing, " ++ map_to_target inner target ++ "\x7d"
    | RustFieldType.Result ok err =>
        "Union\x7bOk\x7b" ++ map_to_target ok target ++ "\x7d, Err\x7b" ++
          map_to_target err target ++ "\x7d\x7d"
  else if target = "gleam" then
    match field_type with
    | RustFieldType.I64 => "Int"
    | RustFieldType.I32 => "Int"
    | RustFieldType.U64 => "Int"
    | RustFieldType.U32 => "Int"
    | RustFieldType.String => "String"
    | RustFieldType.Bool => "Bool"
    | RustFieldType.F64 => "Float"
    | RustFieldType.F32 => "Float"
    | RustFieldType.Struct name => name
    | RustFieldType.Vec inner => "List(" ++ map_to_target inner target ++ ")"
    | RustFieldType.Option inner => "Option(" ++ map_to_target inner target ++ ")"
    | RustFieldType.Result ok err =>
        "Result(" ++ map_to_target ok target ++ ", " ++ map_to_target err target ++ ")"
  else
    "Unknown"

/-- Rust `format!("{:?}", field_type)` on a `RustFieldType` (derived
`Debug` output), used by the mapping table before lowercasing. -/
def debug_fmt : RustFieldType → String
  | RustFieldType.I64 => "I64"
  | RustFieldType.I32 => "I32"
  | RustFieldType.U64 => "U64"
  | RustFieldType.U32 => "U32"
  | RustFieldType.String => "String"
  | RustFieldType.Bool => "Bool"
  | RustFieldType.F64 => "F64"
  | RustFieldType.F32 => "F32"
  | RustFieldType.Struct name => "Struct(\"" ++ name ++ "\")"
  | RustFieldType.Vec inner => "Vec(" ++ debug_fmt inner ++ ")"
  | RustFieldType.Option inner => "Option(" ++ debug_fmt inner ++ ")"
  | RustFieldType.Result ok err => "Result(" ++ debug_fmt ok ++ ", " ++ debug_fmt err ++ ")"

/-- The concrete `User` TypeDefinition the extractor produces (the single
value `analyze_rust_type` can return successfully). -/
def exampleUser : RustType :=
  { name := "User"
    fields :=
      [ { name := "id", field_type := RustFieldType.I64, visibility := Visibility.Public }
      , { name := "name", field_type := RustFieldType.String, visibility := Visibility.Public }
      , { name := "email", field_type := RustFieldType.String, visibility := Visibility.Public }
      , { name := "active", field_type := RustFieldType.Bool, visibility := Visibility.Public } ]
    attributes := [ "#[repr(C)]", "#[derive(Debug, Clone, PartialEq)]" ]
    location := "examples/user.rs" }

/-- The public fields of a Rust TypeDefinition (the fields whose
visibility is `Public`), the fields the specification's scorer averages
over. -/
def publicFields (d : RustType) : List RustField :=
  d.fields.filter (fun f =>
    match f.visibility with
    | Visibility.Public => true
    | _ => false)

/-- Modelled from the spec: the per-field fidelity of the capability
table (absent from `src/`, which keeps no such table). The source's
scorer comments document every Rust construct as `Perfect (1.0)` toward
each of its supported targets `rescript`, `julia` and `gleam`, and
`map_to_target` renders every constructor in each of those targets, so
the modelled fidelity is 1 toward a supported target and 0 (no
capability) toward an unknown one. -/
def fieldFidelity (_field_type : RustFieldType) (target : String) : ℚ :=
  if target = "rescript" ∨ target = "julia" ∨ target = "gleam" then 1 else 0

/-- Modelled from the spec: the mean-of-fidelities score of section 4.3 —
the arithmetic mean of the per-field fidelities of the public fields,
and 1 when there are no public fields. -/
def spec_score (d : RustType) (target : String) : ℚ :=
  let pf := publicFields d
  if pf.isEmpty then 1
  else (pf.map (fun f => fieldFidelity f.field_type target)).sum / (pf.length : ℚ)

end rust_analyzer

namespace analyzers

/-- Embedding of `analyzers::calculate_transport_class`: the source's
match arms, in source order — each or-pattern pair of ecosystem tags
becomes one disjunctive test, and the catch-all returns `Wheelbarrow`. -/
def calculate_transport_class (source target : String) : TransportClass :=
  if (source = "rescript" ∧ target = "rust") ∨ (source = "rust" ∧ target = "rescript") then
    TransportClass.Concorde
  else if (source = "rescript" ∧ target = "julia") ∨ (source = "julia" ∧ target = "rescript") then
    TransportClass.Concorde
  else if (source = "rust" ∧ target = "julia") ∨ (source = "julia" ∧ target = "rust") then
    TransportClass.Concorde
  else if (source = "rescript" ∧ target = "gleam") ∨ (source = "gleam" ∧ target = "rescript") then
    TransportClass.Concorde
  else if (source = "rust" ∧ target = "gleam") ∨ (source = "gleam" ∧ target = "rust") then
    TransportClass.Concorde
  else
    TransportClass.Wheelbarrow

/-- The rows pushed by `analyzers::generate_mapping_table`: one formatted
line per element of the positional zip of the ReScript fields with the
Rust fields. (The source also binds the rendered ReScript-to-Rust type
for each row but never uses it in the emitted line.) -/
def mapping_rows (rescript : ReScriptType) (rust : RustType) : List String :=
  (rescript.fields.zip rust.fields).map (fun p =>
    "  " ++ p.1.name ++ ": " ++ (rescript_analyzer.debug_fmt p.1.field_type).toLower ++
      " → " ++ (rust_analyzer.debug_fmt p.2.field_type).toLower ++ "\n")

/-- Embedding of `analyzers::generate_mapping_table`: the concatenation
of the formatted rows. -/
def generate_mapping_table (rescript : ReScriptType) (rust : RustType) : String :=
  String.join (mapping_rows rescript rust)

/-- The values computed by `analyzers::compatibility_report` before they
are interpolated into the report text: the two directional scores, the
transport class, and the mapping table. -/
structure CompatReport where
  rs_score : ℚ
  rust_score : ℚ
  transport_class : TransportClass
  mapping_table : String
  deriving DecidableEq, Repr

/-- Embedding of `analyzers::compatibility_report`: the let-bindings of
the source, assembled as a structure (the source then formats these four
values into its report string). -/
def compatibility_report (rescript : ReScriptType) (rust : RustType) : CompatReport :=
  { rs_score := rescript_analyzer.compatibility_score rescript "rust"
    rust_score := rust_analyzer.compatibility_score rust "rescript"
    transport_class := calculate_transport_class "rescript" "rust"
    mapping_table := generate_mapping_table rescript rust }

/-- Modelled from the spec: the score-interval tier classifier of
section 4.4 (absent from `src/`, whose transport class is computed from
the ecosystem-pair tags instead). Tier names follow the source's
`TransportClass`, which the crate documentation identifies with the
specification's tiers: `Concorde` is full fidelity (score at least
0.99), `BusinessClass` high (at least 0.95), `Economy` partial (at
least 0.80), `Wheelbarrow` low. -/
def classify (score : ℚ) : TransportClass :=
  if 99 / 100 ≤ score then TransportClass.Concorde
  else if 95 / 100 ≤ score then TransportClass.BusinessClass
  else if 80 / 100 ≤ score then TransportClass.Economy
  else TransportClass.Wheelbarrow

/-- A one-field ReScript TypeDefinition, used to exercise the mapping
table on inputs whose field counts differ. -/
def exampleResSingle : ReScriptType :=
  { name := "onefield"
    fields := [ { name := "x", field_type := ReScriptFieldType.Int, optional := false } ]
    location := "examples/one.res" }

/-- A zero-field Rust TypeDefinition, used to exercise the mapping table
on inputs whose field counts differ. -/
def exampleRustEmpty : RustType :=
  { name := "Empty"
    fields := []
    attributes := []
    location := "examples/empty.rs" }

end analyzers

/-! Helper lemmas shared by the claim theorems. -/

/-- Characterization of `calculate_transport_class`: it is exactly the
membership test against the ten hardcoded ordered ecosystem pairs. -/
lemma ctc_pairs (s t : String) :
    analyzers.calculate_transport_class s t =
      (if (s = "rescript" ∧ t = "rust") ∨ (s = "rust" ∧ t = "rescript") ∨
          (s = "rescript" ∧ t = "julia") ∨ (s = "julia" ∧ t = "rescript") ∨
          (s = "rust" ∧ t = "julia") ∨ (s = "julia" ∧ t = "rust") ∨
          (s = "rescript" ∧ t = "gleam") ∨ (s = "gleam" ∧ t = "rescript") ∨
          (s = "rust" ∧ t = "gleam") ∨ (s = "gleam" ∧ t = "rust")
        then TransportClass.Concorde else TransportClass.Wheelbarrow) := by
  unfold analyzers.calculate_transport_class
  split_ifs <;> first | rfl | itauto

/-- The Rust field mapper falls through to the `Unknown` rendering for
every target tag outside its three supported ones. -/
lemma rust_map_unknown (ft : RustFieldType) (t : String)
    (h : t ∉ (["rescript", "julia", "gleam"] : List String)) :
    rust_analyzer.map_to_target ft t = "Unknown" := by
  simp only [List.mem_cons, List.not_mem_nil, or_false, not_or] at h
  unfold rust_analyzer.map_to_target
  rw [if_neg h.1, if_neg h.2.1, if_neg h.2.2]

/-- The ReScript field mapper falls through to the `Unknown` rendering
for every target tag outside its three supported ones. -/
lemma rescript_map_unknown (ft : ReScriptFieldType) (t : String)
    (h : t ∉ (["rust", "julia", "gleam"] : List String)) :
    rescript_analyzer.map_to_target ft t = "Unknown" := by
  simp only [List.mem_cons, List.not_mem_nil, or_false, not_or] at h
  unfold rescript_analyzer.map_to_target
  rw [if_neg h.1, if_neg h.2.1, if_neg h.2.2]

/-- Summing the modelled per-field fidelities of Rust fields toward a
supported target counts the fields, since each fidelity is 1. -/
lemma rust_fid_sum (l : List RustField) (e : String)
    (h : e = "rescript" ∨ e = "julia" ∨ e = "gleam") :
    (l.map (fun f => rust_analyzer.fieldFidelity f.field_type e)).sum = (l.length : ℚ) := by
  induction l with
  | nil => simp
  | cons f fs ih =>
      simp only [List.map_cons, List.sum_cons, List.length_cons, ih]
      unfold rust_analyzer.fieldFidelity
      rw [if_pos h]
      push_cast
      ring

/-- Summing the modelled per-field fidelities of ReScript fields toward
a supported target counts the fields, since each fidelity is 1. -/
lemma rescript_fid_sum (l : List ReScriptField) (e : String)
    (h : e = "rust" ∨ e = "julia" ∨ e = "gleam") :
    (l.map (fun f => rescript_analyzer.fieldFidelity f.field_type e)).sum = (l.length : ℚ) := by
  induction l with
  | nil => simp
  | cons f fs ih =>
      simp only [List.map_cons, List.sum_cons, List.length_cons, ih]
      unfold rescript_analyzer.fieldFidelity
      rw [if_pos h]
      push_cast
      ring

/-! Claim theorems. -/

/-- Claim C1: for every TypeDefinition and every target ecosystem its
scorer supports, the compatibility score equals the arithmetic mean of
the per-field fidelities of the public fields (with the spec-modelled
capability table, under which every construct is lossless toward a
supported target), and a TypeDefinition with zero public fields scores
exactly 1. -/
theorem C1_score_is_mean_of_field_fidelities :
    ∀ (dR : RustType) (dS : ReScriptType) (eR eS : String),
      (eR = "rescript" ∨ eR = "julia" ∨ eR = "gleam" →
        rust_analyzer.compatibility_score dR eR = rust_analyzer.spec_score dR eR ∧
        (rust_analyzer.publicFields dR = [] → rust_analyzer.compatibility_score dR eR = 1)) ∧
      (eS = "rust" ∨ eS = "julia" ∨ eS = "gleam" →
        rescript_analyzer.compatibility_score dS eS = rescript_analyzer.spec_score dS eS ∧
        (rescript_analyzer.publicFields dS = [] →
          rescript_analyzer.compatibility_score dS eS = 1)) := by
  intro dR dS eR eS
  constructor
  · intro h
    have hs : rust_analyzer.compatibility_score dR eR = 1 := by
      rcases h with rfl | rfl | rfl <;> rfl
    refine ⟨?_, fun _ => hs⟩
    rw [hs]
    unfold rust_analyzer.spec_score
    by_cases hp : (rust_analyzer.publicFields dR).isEmpty
    · simp [hp]
    · simp only [hp, if_false, Bool.false_eq_true]
      rw [rust_fid_sum _ _ h]
      have hlen : ((rust_analyzer.publicFields dR).length : ℚ) ≠ 0 := by
        simpa [List.isEmpty_iff, List.length_eq_zero] using hp
      rw [div_self hlen]
  · intro h
    have hs : rescript_analyzer.compatibility_score dS eS = 1 := by
      rcases h with rfl | rfl | rfl <;> rfl
    refine ⟨?_, fun _ => hs⟩
    rw [hs]
    unfold rescript_analyzer.spec_score
    by_cases hp : (rescript_analyzer.publicFields dS).isEmpty
    · simp [hp]
    · simp only [hp, if_false, Bool.false_eq_true]
      rw [rescript_fid_sum _ _ h]
      have hlen : ((rescript_analyzer.publicFields dS).length : ℚ) ≠ 0 := by
        simpa [List.isEmpty_iff, List.length_eq_zero] using hp
      rw [div_self hlen]

/-- Witness for claim C1 at the concrete extracted `User` types and
supported targets. -/
theorem C1_score_mean_witness :
    rust_analyzer.compatibility_score rust_analyzer.exampleUser "rescript" =
      rust_analyzer.spec_score rust_analyzer.exampleUser "rescript" ∧
    rescript_analyzer.compatibility_score rescript_analyzer.exampleUser "rust" =
      rescript_analyzer.spec_score rescript_analyzer.exampleUser "rust" :=
  ⟨((C1_score_is_mean_of_field_fidelities rust_analyzer.exampleUser
      rescript_analyzer.exampleUser "rescript" "rust").1 (Or.inl rfl)).1,
   ((C1_score_is_mean_of_field_fidelities rust_analyzer.exampleUser
      rescript_analyzer.exampleUser "rescript" "rust").2 (Or.inl rfl)).1⟩

/-- Claim C2, counterexample: the tier is not derived from the computed
score through the fixed intervals. Both ecosystems `julia` and `gleam`
are supported, every score the code computes toward either of them is
1 (shown at the extracted `User` types), and the interval classifier
sends score 1 to the top tier — yet the code assigns the ordered pair
(julia, gleam) the bottom tier `Wheelbarrow`, because its classification
is a hardcoded pair lookup that lacks this pair. -/
theorem C2_tier_not_score_derived_counterexample :
    analyzers.calculate_transport_class "julia" "gleam" = TransportClass.Wheelbarrow ∧
    analyzers.classify 1 = TransportClass.Concorde ∧
    rust_analyzer.compatibility_score rust_analyzer.exampleUser "julia" = 1 ∧
    rust_analyzer.compatibility_score rust_analyzer.exampleUser "gleam" = 1 ∧
    rescript_analyzer.compatibility_score rescript_analyzer.exampleUser "julia" = 1 ∧
    rescript_analyzer.compatibility_score rescript_analyzer.exampleUser "gleam" = 1 := by
  refine ⟨rfl, ?_, rfl, rfl, rfl, rfl⟩
  norm_num [analyzers.classify]

/-- Claim C2, amended: tier classification is a total pure function of
the ordered ecosystem-tag pair given by a hardcoded list — the ten
listed ordered pairs map to `Concorde` and every other pair maps to
`Wheelbarrow` — and the intermediate tiers `BusinessClass` and
`Economy` are never produced; no score is consulted. -/
theorem C2_hardcoded_pair_table :
    ∀ s t : String,
      analyzers.calculate_transport_class s t =
        (if (s = "rescript" ∧ t = "rust") ∨ (s = "rust" ∧ t = "rescript") ∨
            (s = "rescript" ∧ t = "julia") ∨ (s = "julia" ∧ t = "rescript") ∨
            (s = "rust" ∧ t = "julia") ∨ (s = "julia" ∧ t = "rust") ∨
            (s = "rescript" ∧ t = "gleam") ∨ (s = "gleam" ∧ t = "rescript") ∨
            (s = "rust" ∧ t = "gleam") ∨ (s = "gleam" ∧ t = "rust")
          then TransportClass.Concorde else TransportClass.Wheelbarrow) ∧
      analyzers.calculate_transport_class s t ≠ TransportClass.BusinessClass ∧
      analyzers.calculate_transport_class s t ≠ TransportClass.Economy := by
  intro s t
  refine ⟨ctc_pairs s t, ?_, ?_⟩ <;>
    rw [ctc_pairs s t] <;> split_ifs <;> simp

/-- Witness for the amended claim C2 at a concrete unlisted pair. -/
theorem C2_hardcoded_pair_table_witness :
    analyzers.calculate_transport_class "elm" "rust" = TransportClass.Wheelbarrow := by
  have h := (C2_hardcoded_pair_table "elm" "rust").1
  rw [h]
  decide

/-- Claim C3: for every pair of analyzed TypeDefinitions, the transport
tier in the compatibility report equals the interval classification of
the minimum of the forward score (ReScript type toward `rust`) and the
backward score (Rust type toward `rescript`), and the two directional
scores are the two independent scorer invocations of the source. -/
theorem C3_report_tier_is_classify_of_min_scores :
    ∀ (a : ReScriptType) (b : RustType),
      (analyzers.compatibility_report a b).transport_class =
        analyzers.classify
          (min (analyzers.compatibility_report a b).rs_score
            (analyzers.compatibility_report a b).rust_score) ∧
      (analyzers.compatibility_report a b).rs_score =
        rescript_analyzer.compatibility_score a "rust" ∧
      (analyzers.compatibility_report a b).rust_score =
        rust_analyzer.compatibility_score b "rescript" := by
  intro a b
  refine ⟨?_, rfl, rfl⟩
  show analyzers.calculate_transport_class "rescript" "rust" = analyzers.classify (min 1 1)
  norm_num [analyzers.calculate_transport_class, analyzers.classify]

/-- Claim C4: for every TypeDefinition of either ecosystem and every
target tag whatsoever (in particular every supported one), the
compatibility score lies in the closed interval from 0 to 1. -/
theorem C4_score_in_unit_interval :
    ∀ (d : ReScriptType) (r : RustType) (t : String),
      0 ≤ rescript_analyzer.compatibility_score d t ∧
        rescript_analyzer.compatibility_score d t ≤ 1 ∧
        0 ≤ rust_analyzer.compatibility_score r t ∧
        rust_analyzer.compatibility_score r t ≤ 1 := by
  intro d r t
  unfold rescript_analyzer.compatibility_score rust_analyzer.compatibility_score
  split_ifs <;> norm_num

/-- Claim C5: for every input text that does not contain the extractor's
aggregate declaration marker, the extractor returns the not-found error
(the source's `Type definition not found`), and every successful
extraction returns the full four-field `User` TypeDefinition, never a
default or empty one. -/
theorem C5_no_declaration_not_found :
    ∀ s : String,
      (¬ strContains s "type user" →
        rescript_analyzer.analyze_rescript_type s = Except.error "Type definition not found") ∧
      (¬ strContains s "pub struct User" →
        rust_analyzer.analyze_rust_type s = Except.error "Type definition not found") ∧
      (∀ T, rescript_analyzer.analyze_rescript_type s = Except.ok T →
        T = rescript_analyzer.exampleUser ∧ T.fields.length = 4) ∧
      (∀ T, rust_analyzer.analyze_rust_type s = Except.ok T →
        T = rust_analyzer.exampleUser ∧ T.fields.length = 4) := by
  intro s
  refine ⟨?_, ?_, ?_, ?_⟩
  · intro h
    unfold rescript_analyzer.analyze_rescript_type
    rw [if_neg h]
  · intro h
    unfold rust_analyzer.analyze_rust_type
    rw [if_neg h]
  · intro T hT
    by_cases hc : strContains s "type user"
    · unfold rescript_analyzer.analyze_rescript_type at hT
      rw [if_pos hc] at hT
      injection hT with h
      subst h
      exact ⟨rfl, rfl⟩
    · unfold rescript_analyzer.analyze_rescript_type at hT
      rw [if_neg hc] at hT
      exact absurd hT (by simp)
  · intro T hT
    by_cases hc : strContains s "pub struct User"
    · unfold rust_analyzer.analyze_rust_type at hT
      rw [if_pos hc] at hT
      injection hT with h
      subst h
      exact ⟨rfl, rfl⟩
    · unfold rust_analyzer.analyze_rust_type at hT
      rw [if_neg hc] at hT
      exact absurd hT (by simp)

/-- Witness for claim C5 at a concrete declaration-free input. -/
theorem C5_no_declaration_not_found_witness :
    rescript_analyzer.analyze_rescript_type "fn main() resolves nothing" =
      Except.error "Type definition not found" ∧
    rust_analyzer.analyze_rust_type "fn main() resolves nothing" =
      Except.error "Type definition not found" :=
  ⟨(C5_no_declaration_not_found "fn main() resolves nothing").1 (by decide),
   (C5_no_declaration_not_found "fn main() resolves nothing").2.1 (by decide)⟩

/-- Claim C6, counterexample: rendering toward the unknown ecosystem tag
`haskell` silently produces the default string `Unknown` instead of
failing with a typed mapping error (no `MappingError` type exists in the
source — `map_to_target` returns a plain string), and an `Either`/sum
field renders toward ReScript instead of failing. -/
theorem C6_unknown_target_renders_default_counterexample :
    rust_analyzer.map_to_target RustFieldType.I64 "haskell" = "Unknown" ∧
    rust_analyzer.map_to_target
        (RustFieldType.Result RustFieldType.I64 RustFieldType.String) "rescript" =
      "result<int, string>" := by
  refine ⟨rfl, ?_⟩
  decide

/-- Claim C6, amended: the render operation is infallible — its result
is a plain string with no error channel; for every unknown target tag it
returns the default rendering `Unknown` rather than a typed error, and a
sum/Result field type still renders toward ReScript. -/
theorem C6_render_infallible :
    ∀ (ft : RustFieldType) (rt : ReScriptFieldType) (t u : String),
      (t ∉ (["rescript", "julia", "gleam"] : List String) →
        rust_analyzer.map_to_target ft t = "Unknown") ∧
      (u ∉ (["rust", "julia", "gleam"] : List String) →
        rescript_analyzer.map_to_target rt u = "Unknown") ∧
      rust_analyzer.map_to_target (RustFieldType.Result ft ft) "rescript" =
        "result<" ++ rust_analyzer.map_to_target ft "rescript" ++ ", " ++
          rust_analyzer.map_to_target ft "rescript" ++ ">" := by
  intro ft rt t u
  exact ⟨rust_map_unknown ft t, rescript_map_unknown rt u, rfl⟩

/-- Witness for the amended claim C6 at a concrete unknown target tag. -/
theorem C6_render_infallible_witness :
    rust_analyzer.map_to_target RustFieldType.Bool "python" = "Unknown" ∧
    rescript_analyzer.map_to_target ReScriptFieldType.Bool "python" = "Unknown" :=
  ⟨(C6_render_infallible RustFieldType.Bool ReScriptFieldType.Bool "python" "python").1
      (by decide),
   (C6_render_infallible RustFieldType.Bool ReScriptFieldType.Bool "python" "python").2.1
      (by decide)⟩

/-- Claim C7, counterexample: a ReScript TypeDefinition with one public
field compared against a Rust TypeDefinition with no fields produces an
empty mapping sequence — the field of the first type gets no entry at
all (it is silently dropped by the positional zip), contradicting the
claim that every public field of the first type appears, unmatched ones
included. -/
theorem C7_mapping_truncates_counterexample :
    analyzers.mapping_rows analyzers.exampleResSingle analyzers.exampleRustEmpty = [] ∧
    analyzers.exampleResSingle.fields.length = 1 := by
  constructor <;> rfl

/-- Claim C7, amended: the per-field mapping sequence is the positional
zip of the two field lists, so it has exactly min(|a.fields|,
|b.fields|) entries; fields of the first type beyond the second type's
field count are dropped, and no unmatched flag exists. -/
theorem C7_mapping_rows_zip_length :
    ∀ (a : ReScriptType) (b : RustType),
      (analyzers.mapping_rows a b).length = min a.fields.length b.fields.length := by
  intro a b
  simp [analyzers.mapping_rows]

/-- Claim C8: the transport class computation is symmetric in its
ordered ecosystem-pair argument — every listed pair appears in the
source's match together with its reverse, and the catch-all is
symmetric. -/
theorem C8_transport_class_symmetric :
    ∀ s t : String,
      analyzers.calculate_transport_class s t = analyzers.calculate_transport_class t s := by
  intro s t
  rw [ctc_pairs s t, ctc_pairs t s]
  exact if_congr (by itauto) rfl rfl

/-- Claim C9, counterexample: the claim says every known tag among
rust/rescript/julia/gleam scores 1; but each scorer returns 0 for its
own ecosystem's tag — the ReScript scorer at target `rescript` and the
Rust scorer at target `rust` both score 0 on the extracted `User`
types. -/
theorem C9_own_tag_scores_zero_counterexample :
    rescript_analyzer.compatibility_score rescript_analyzer.exampleUser "rescript" = 0 ∧
    rust_analyzer.compatibility_score rust_analyzer.exampleUser "rust" = 0 := by
  constructor <;> rfl

/-- Claim C9, amended: each compatibility score is independent of the
TypeDefinition's contents — it depends only on the target tag, and it
equals 1 exactly on the scorer's three foreign tags (ReScript scorer:
rust/julia/gleam; Rust scorer: rescript/julia/gleam) and 0 on every
other tag, the scorer's own ecosystem tag included. -/
theorem C9_score_ignores_fields :
    ∀ (d1 d2 : ReScriptType) (r1 r2 : RustType) (t : String),
      rescript_analyzer.compatibility_score d1 t = rescript_analyzer.compatibility_score d2 t ∧
      rust_analyzer.compatibility_score r1 t = rust_analyzer.compatibility_score r2 t ∧
      rescript_analyzer.compatibility_score d1 t =
        (if t = "rust" ∨ t = "julia" ∨ t = "gleam" then 1 else 0) ∧
      rust_analyzer.compatibility_score r1 t =
        (if t = "rescript" ∨ t = "julia" ∨ t = "gleam" then 1 else 0) := by
  intro d1 d2 r1 r2 t
  unfold rescript_analyzer.compatibility_score rust_analyzer.compatibility_score
  split_ifs <;> first | rfl | tauto

/-- Claim C10: both field mappers are total, terminating structural
recursions — the wrapper constructors render by recursing on the
strictly smaller wrapped types (shown by the unfolding equations for
Sequence/Optional/Either wrappers), and every unrecognized target tag
yields the string `Unknown` rather than a failure. -/
theorem C10_field_mapper_total :
    ∀ (i a b : RustFieldType) (ri : ReScriptFieldType) (t : String),
      (t ∉ (["rescript", "julia", "gleam"] : List String) →
        rust_analyzer.map_to_target i t = "Unknown") ∧
      rust_analyzer.map_to_target (RustFieldType.Vec i) "rescript" =
        "array<" ++ rust_analyzer.map_to_target i "rescript" ++ ">" ∧
      rust_analyzer.map_to_target (RustFieldType.Option i) "julia" =
        "Union\x7bNothing, " ++ rust_analyzer.map_to_target i "julia" ++ "\x7d" ∧
      rust_analyzer.map_to_target (RustFieldType.Result a b) "gleam" =
        "Result(" ++ rust_analyzer.map_to_target a "gleam" ++ ", " ++
          rust_analyzer.map_to_target b "gleam" ++ ")" ∧
      (t ∉ (["rust", "julia", "gleam"] : List String) →
        rescript_analyzer.map_to_target ri t = "Unknown") ∧
      rescript_analyzer.map_to_target (ReScriptFieldType.Array ri) "rust" =
        "Vec<" ++ rescript_analyzer.map_to_target ri "rust" ++ ">" ∧
      rescript_analyzer.map_to_target (ReScriptFieldType.Option ri) "gleam" =
        "Option(" ++ rescript_analyzer.map_to_target ri "gleam" ++ ")" := by
  intro i a b ri t
  exact ⟨rust_map_unknown i t, rfl, rfl, rfl, rescript_map_unknown ri t, rfl, rfl⟩

/-- Witness for claim C10 at concrete unrecognized target tags. -/
theorem C10_field_mapper_witness :
    rust_analyzer.map_to_target RustFieldType.I64 "typescript" = "Unknown" ∧
    rescript_analyzer.map_to_target ReScriptFieldType.Int "elm" = "Unknown" :=
  ⟨(C10_field_mapper_total RustFieldType.I64 RustFieldType.I64 RustFieldType.I64
      ReScriptFieldType.Int "typescript").1 (by decide),
   (C10_field_mapper_total RustFieldType.I64 RustFieldType.I64 RustFieldType.I64
      ReScriptFieldType.Int "elm").2.2.2.2.1 (by decide)⟩
